import Mathlib

/-!
Verification of the Maxi project-gallery server (`src/server.js` and its
environment-configured variant `src/unnamed/part_000`).

The server exposes three routes over a Mongo-backed record store and a
Cloudinary asset store:
  * `GET /api/projects`         — list all records, newest first
  * `POST /api/upload`          — upload an image, persist a project record
  * `DELETE /api/projects/:id`  — delete the image, then the record

We embed the route handlers as pure functions over an explicit record
store (a list of project documents), with injected outcomes for the
external calls (database failures, Cloudinary destroy results).
-/

namespace Maxi

/-- A project document, per the Mongoose schema `projectSchema` in
`src/server.js` lines 30-38: `title`, `category`, `imageUrl` are required
strings, `publicId` is an optional string, `createdAt` is a timestamp
(modelled as a natural number of milliseconds).  `id` is the Mongo `_id`. -/
structure Project where
  id : String
  title : String
  category : String
  imageUrl : String
  publicId : Option String
  createdAt : Nat
deriving DecidableEq, Repr

/-- The record store: the collection of persisted project documents. -/
abbrev Store := List Project

/-- Response bodies produced by the three handlers: a list of records
(`res.json(projects)`), a single record (`res.status(201).json(savedProject)`),
an error object (`{ error: msg }`), or a confirmation (`{ message: msg }`). -/
inductive Body where
  | projects (l : List Project)
  | project (p : Project)
  | errorMsg (s : String)
  | message (s : String)
deriving DecidableEq, Repr

/-- An HTTP response: status code plus JSON body. -/
structure Resp where
  status : Nat
  body : Body
deriving DecidableEq, Repr

/-- JavaScript truthiness of an optional string, as used by
`if (project.publicId)` (line 101) and `if (!mongoURI)` (part_000 line 21):
`undefined` and the empty string are falsy. -/
def optTruthy : Option String → Bool
  | none => false
  | some s => !(s == "")

/-- Mongoose `required: true` on a `String` path rejects `undefined` and
the empty string; `newProject.save()` therefore fails validation unless
`title`, `category`, `imageUrl` are all non-empty. -/
def validProject (p : Project) : Bool :=
  !(p.title == "") && !(p.category == "") && !(p.imageUrl == "")

/-- Records ordered with the later `createdAt` first: the order produced by
`Project.find().sort({ createdAt: -1 })` (line 66). -/
def laterFirst (a b : Project) : Prop :=
  b.createdAt ≤ a.createdAt

instance : DecidableRel laterFirst := fun a b =>
  inferInstanceAs (Decidable (b.createdAt ≤ a.createdAt))

instance : IsTotal Project laterFirst :=
  ⟨fun a b => Nat.le_total b.createdAt a.createdAt⟩

instance : IsTrans Project laterFirst :=
  ⟨fun _ _ _ h h' => Nat.le_trans h' h⟩

/-- Modelled from the MongoDB query semantics of
`Project.find().sort({ createdAt: -1 })`: every document of the collection,
sorted by `createdAt` descending (ties in unspecified order). -/
def sortByCreatedAtDesc (store : Store) : List Project :=
  List.insertionSort laterFirst store

/-- `GET /api/projects` (lines 64-71): on success, 200 with every record
sorted newest first; if the query fails (`findFail = some msg`), 500 with
`{ error: err.message }`.  The store is returned unchanged: the handler
only reads it. -/
def getProjects (store : Store) (findFail : Option String) : Resp × Store :=
  match findFail with
  | some msg => (⟨500, .errorMsg msg⟩, store)
  | none => (⟨200, .projects (sortByCreatedAtDesc store)⟩, store)

/-- The file object `multer-storage-cloudinary` attaches to `req.file` after
a successful upload: `path` is the Cloudinary URL, `filename` the Cloudinary
public id. -/
structure UploadedFile where
  path : String
  filename : String
deriving DecidableEq, Repr

/-- `upload.single` on the image field (line 74): when the multipart request carries no
`image` file field, nothing is streamed to Cloudinary and `req.file` is
absent; otherwise the file has been uploaded to Cloudinary before the
handler body runs.  The second component records the uploads issued. -/
def multerSingle (incoming : Option UploadedFile) :
    Option UploadedFile × List UploadedFile :=
  match incoming with
  | none => (none, [])
  | some f => (some f, [f])

/-- The body of the `POST /api/upload` handler (lines 74-92): 400 if
`req.file` is absent; otherwise build the record from the form fields and
the Cloudinary result and save it.  `newId`/`now` are the server-assigned
`_id` and `createdAt`; `dbFail` injects a connectivity failure of
`newProject.save()`.  Mongoose validation runs on save. -/
def postUpload (store : Store) (file : Option UploadedFile)
    (title category : String) (newId : String) (now : Nat)
    (dbFail : Option String) : Resp × Store :=
  match file with
  | none => (⟨400, .errorMsg "No image file uploaded"⟩, store)
  | some f =>
    let p : Project :=
      { id := newId, title := title, category := category,
        imageUrl := f.path, publicId := some f.filename, createdAt := now }
    if validProject p then
      match dbFail with
      | some msg => (⟨500, .errorMsg msg⟩, store)
      | none => (⟨201, .project p⟩, store ++ [p])
    else
      (⟨500, .errorMsg "Project validation failed"⟩, store)

/-- The whole `POST /api/upload` route: the multer/Cloudinary middleware
followed by the handler body.  The third component is the list of files
streamed to the remote asset store. -/
def handleUpload (store : Store) (incoming : Option UploadedFile)
    (title category : String) (newId : String) (now : Nat)
    (dbFail : Option String) : Resp × Store × List UploadedFile :=
  let m := multerSingle incoming
  let r := postUpload store m.1 title category newId now dbFail
  (r.1, r.2, m.2)

/-- Modelled from the Mongoose cast semantics of `Project.findById`: the
`:id` path parameter is castable to an `ObjectId` exactly when it is a
24-character hexadecimal string; otherwise the query throws a `CastError`
before reaching the database. -/
def validObjectId (s : String) : Bool :=
  s.length == 24 && s.toList.all (fun c => c.isDigit || ("abcdefABCDEF".toList.contains c))

/-- The message of the `CastError` thrown by `findById` on a malformed id. -/
def castErrorMsg (id : String) : String :=
  "Cast to ObjectId failed for value \x7b" ++ id ++ "\x7d at path _id"

/-- Outcome of `cloudinary.uploader.destroy(publicId)` (line 102). -/
inductive DestroyOutcome where
  | success
  | failure (msg : String)
deriving DecidableEq, Repr

/-- `DELETE /api/projects/:id` (lines 95-112).  `findFail` injects a
connectivity failure of `findById`, `destroy` is the outcome of the
Cloudinary destroy call, `deleteFail` a connectivity failure of
`findByIdAndDelete`.  Returns the response, the resulting store, and the
list of public ids passed to `cloudinary.uploader.destroy`. -/
def deleteProject (store : Store) (id : String) (findFail : Option String)
    (destroy : DestroyOutcome) (deleteFail : Option String) :
    Resp × Store × List String :=
  if validObjectId id then
    match findFail with
    | some msg => (⟨500, .errorMsg msg⟩, store, [])
    | none =>
      match store.find? (fun p => p.id == id) with
      | none => (⟨404, .errorMsg "Project not found"⟩, store, [])
      | some project =>
        let calls : List String :=
          if optTruthy project.publicId then [project.publicId.getD ""] else []
        if optTruthy project.publicId then
          match destroy with
          | .failure msg => (⟨500, .errorMsg msg⟩, store, calls)
          | .success =>
            match deleteFail with
            | some msg => (⟨500, .errorMsg msg⟩, store, calls)
            | none =>
              (⟨200, .message "Project deleted successfully"⟩,
               store.filter (fun p => !(p.id == id)), calls)
        else
          match deleteFail with
          | some msg => (⟨500, .errorMsg msg⟩, store, calls)
          | none =>
            (⟨200, .message "Project deleted successfully"⟩,
             store.filter (fun p => !(p.id == id)), calls)
  else
    (⟨500, .errorMsg (castErrorMsg id)⟩, store, [])

/-- A Cloudinary transformation entry, as configured in the
`CloudinaryStorage` params (lines 49-57). -/
structure Transformation where
  width : Option Nat
  height : Option Nat
  crop : String
deriving DecidableEq, Repr

/-- The `CloudinaryStorage` params object. -/
structure StorageParams where
  folder : String
  allowed_formats : List String
  transformation : List Transformation
deriving DecidableEq, Repr

/-- The upload pipeline configuration from `src/server.js` lines 49-57:
folder `lented-gallery`, formats jpg/png/jpeg/webp, and the single
transformation `{ width: 1000, crop: "limit" }`. -/
def storage : StorageParams :=
  { folder := "lented-gallery"
    allowed_formats := ["jpg", "png", "jpeg", "webp"]
    transformation := [{ width := some 1000, height := none, crop := "limit" }] }

/-- Modelled from the Cloudinary documentation of the `limit` crop mode with
only a `width` bound: an image wider than the bound is scaled down so its
width equals the bound, preserving aspect ratio; an image within the bound
is left untouched (no upscaling).  The height is only affected through the
proportional scaling. -/
def applyLimitWidth (maxW w h : Nat) : Nat × Nat :=
  if w ≤ maxW then (w, h) else (maxW, h * maxW / w)

/-- The environment variables read by `src/unnamed/part_000`. -/
structure Env where
  MONGO_URI : Option String
  CLOUDINARY_CLOUD_NAME : Option String
  CLOUDINARY_API_KEY : Option String
  CLOUDINARY_API_SECRET : Option String
  PORT : Option String
deriving DecidableEq, Repr

/-- The diagnostic printed by part_000 line 22 before `process.exit(1)`. -/
def fatalDiagnostic : String := "FATAL ERROR: MONGO_URI is not defined."

/-- Startup outcome: the process either halts with a diagnostic or reaches
`app.listen` on some port. -/
inductive StartupResult where
  | halted (diagnostic : String)
  | serving (port : String)
deriving DecidableEq, Repr

/-- `const PORT = process.env.PORT || 3000` (line 10): a missing or empty
`PORT` falls back to 3000. -/
def portOf (env : Env) : String :=
  if optTruthy env.PORT then env.PORT.getD "" else "3000"

/-- Startup of the environment-configured variant `src/unnamed/part_000`
lines 19-24: if `process.env.MONGO_URI` is falsy, print the diagnostic
and `process.exit(1)`; otherwise proceed to `app.listen`.  No other
configuration value is checked before serving. -/
def startupSecure (env : Env) : StartupResult :=
  if optTruthy env.MONGO_URI then .serving (portOf env) else .halted fatalDiagnostic

/-- The schema invariant on a single record: the three `required: true`
string paths are non-empty. -/
def goodRecord (p : Project) : Prop :=
  p.title ≠ "" ∧ p.category ≠ "" ∧ p.imageUrl ≠ ""

/-- Every persisted record satisfies the schema invariant. -/
def StoreInv (s : Store) : Prop := ∀ p ∈ s, goodRecord p

/-! ## Theorems -/

/-- C2: `GET /api/projects` returns 200 with the full sequence of persisted
records ordered by `createdAt` descending (a permutation of the store,
pairwise later-first), the empty sequence on the empty store; any storage
failure yields 500 with the error message. -/
theorem getProjects_spec (store : Store) :
    (getProjects store none).1
      = ⟨200, .projects (sortByCreatedAtDesc store)⟩
  ∧ (sortByCreatedAtDesc store).Perm store
  ∧ (sortByCreatedAtDesc store).Pairwise laterFirst
  ∧ (store = [] → (getProjects store none).1 = ⟨200, .projects []⟩)
  ∧ (∀ msg, (getProjects store (some msg)).1 = ⟨500, .errorMsg msg⟩) := by
  refine ⟨rfl, List.perm_insertionSort laterFirst store,
    List.sorted_insertionSort laterFirst store, ?_, fun msg => rfl⟩
  rintro rfl
  rfl

theorem getProjects_spec_witness :
    ([] : Store) = [] ∧ (getProjects [] none).1 = ⟨200, .projects []⟩ :=
  ⟨rfl, (getProjects_spec []).2.2.2.1 rfl⟩

/-- C4: `POST /api/upload` with no file field returns 400 with an error body,
creates no record (store unchanged), and issues no remote upload, whatever
the state of the record store. -/
theorem upload_noFile (store : Store) (t c newId : String) (now : Nat)
    (dbFail : Option String) :
    handleUpload store none t c newId now dbFail
      = (⟨400, .errorMsg "No image file uploaded"⟩, store, []) := rfl

/-- C8: in the environment-configured variant (part_000), a missing
`MONGO_URI` halts startup with the diagnostic, and this is the only fatal
configuration condition: whenever `MONGO_URI` is set non-empty the process
reaches `app.listen`, regardless of every other configuration value. -/
theorem startup_mongoURI (env : Env) :
    (env.MONGO_URI = none → startupSecure env = .halted fatalDiagnostic)
  ∧ (∀ uri, env.MONGO_URI = some uri → uri ≠ "" →
      startupSecure env = .serving (portOf env)) := by
  constructor
  · intro h
    simp [startupSecure, h, optTruthy]
  · intro uri h hne
    simp [startupSecure, h, optTruthy, hne]

theorem startup_mongoURI_witness :
    startupSecure ⟨none, some "cn", some "k", some "s", some "8080"⟩
      = .halted fatalDiagnostic :=
  (startup_mongoURI ⟨none, some "cn", some "k", some "s", some "8080"⟩).1 rfl

/-- C9 counterexample: the configured transformation is
`width: 1000, crop: limit`, which bounds only the width.  A 500 x 2000
image passes through unchanged, so its longest dimension (2000) exceeds
1000, refuting the claim that the longest dimension is limited to 1000px. -/
theorem limit_longest_dimension_counterexample :
    storage.transformation = [⟨some 1000, none, "limit"⟩]
  ∧ applyLimitWidth 1000 500 2000 = (500, 2000)
  ∧ ¬ (max (applyLimitWidth 1000 500 2000).1
          (applyLimitWidth 1000 500 2000).2 ≤ 1000) := by
  refine ⟨rfl, rfl, by decide⟩

/-- C9 amended: the pipeline accepts only jpg/png/jpeg/webp, stores under the
fixed folder `lented-gallery`, and its transformation limits the image
WIDTH to 1000px, preserving aspect ratio and never upscaling (the height is
constrained only through proportional scaling). -/
theorem storage_config (w h : Nat) :
    storage.folder = "lented-gallery"
  ∧ storage.allowed_formats = ["jpg", "png", "jpeg", "webp"]
  ∧ storage.transformation = [⟨some 1000, none, "limit"⟩]
  ∧ (applyLimitWidth 1000 w h).1 ≤ 1000
  ∧ (applyLimitWidth 1000 w h).1 ≤ w
  ∧ (applyLimitWidth 1000 w h).2 ≤ h
  ∧ (w ≤ 1000 → applyLimitWidth 1000 w h = (w, h))
  ∧ (¬ w ≤ 1000 → applyLimitWidth 1000 w h = (1000, h * 1000 / w)) := by
  refine ⟨rfl, rfl, rfl, ?_, ?_, ?_, ?_, ?_⟩
  · by_cases hw : w ≤ 1000 <;> simp [applyLimitWidth, hw]
  · by_cases hw : w ≤ 1000 <;> simp [applyLimitWidth, hw]
    omega
  · by_cases hw : w ≤ 1000 <;> simp [applyLimitWidth, hw]
    calc h * 1000 / w ≤ h * w / w :=
          Nat.div_le_div_right (Nat.mul_le_mul_left h (by omega))
      _ = h := Nat.mul_div_cancel h (by omega)
  · intro hw; simp [applyLimitWidth, hw]
  · intro hw; simp [applyLimitWidth, hw]

theorem storage_config_witness :
    (800 ≤ 1000 ∧ applyLimitWidth 1000 800 600 = (800, 600))
  ∧ (¬ 1500 ≤ 1000 ∧ applyLimitWidth 1000 1500 600 = (1000, 600 * 1000 / 1500)) :=
  ⟨⟨by decide, (storage_config 800 600).2.2.2.2.2.2.1 (by decide)⟩,
   ⟨by decide, (storage_config 1500 600).2.2.2.2.2.2.2 (by decide)⟩⟩

/-- C3: `POST /api/upload` with a file (the Cloudinary middleware succeeded)
builds the record from the form fields with `imageUrl`/`publicId` exactly
the URL and identifier returned by the asset store, persists it, and
returns 201 with the saved record, whose `imageUrl` and `publicId` are
non-empty; if persisting fails, it returns 500 with the error message and
the store is unchanged. -/
theorem upload_withFile (store : Store) (f : UploadedFile)
    (t c newId : String) (now : Nat)
    (ht : t ≠ "") (hc : c ≠ "") (hpath : f.path ≠ "") (hname : f.filename ≠ "") :
    (handleUpload store (some f) t c newId now none
       = (⟨201, .project ⟨newId, t, c, f.path, some f.filename, now⟩⟩,
          store ++ [⟨newId, t, c, f.path, some f.filename, now⟩], [f]))
  ∧ (Project.mk newId t c f.path (some f.filename) now).imageUrl ≠ ""
  ∧ (Project.mk newId t c f.path (some f.filename) now).publicId ≠ some ""
  ∧ (∀ msg, handleUpload store (some f) t c newId now (some msg)
       = (⟨500, .errorMsg msg⟩, store, [f])) := by
  refine ⟨?_, hpath, by simpa using hname, ?_⟩
  · simp [handleUpload, multerSingle, postUpload, validProject, ht, hc, hpath]
  · intro msg
    simp [handleUpload, multerSingle, postUpload, validProject, ht, hc, hpath]

theorem upload_withFile_witness :
    handleUpload [] (some ⟨"https://cdn/x.jpg", "lented-gallery/x"⟩)
        "Sunset" "Landscape" "aaaaaaaaaaaaaaaaaaaaaaaa" 5 none
      = (⟨201, .project ⟨"aaaaaaaaaaaaaaaaaaaaaaaa", "Sunset", "Landscape",
            "https://cdn/x.jpg", some "lented-gallery/x", 5⟩⟩,
         [⟨"aaaaaaaaaaaaaaaaaaaaaaaa", "Sunset", "Landscape",
            "https://cdn/x.jpg", some "lented-gallery/x", 5⟩],
         [⟨"https://cdn/x.jpg", "lented-gallery/x"⟩]) :=
  (upload_withFile [] ⟨"https://cdn/x.jpg", "lented-gallery/x"⟩
    "Sunset" "Landscape" "aaaaaaaaaaaaaaaaaaaaaaaa" 5
    (by decide) (by decide) (by decide) (by decide)).1

/-- C5: `DELETE /api/projects/:id` with a well-formed id matching no record
returns 404 with the body `error: Project not found`, issues no Cloudinary
destroy call, and leaves the record store unchanged. -/
theorem delete_notFound (store : Store) (id : String)
    (hv : validObjectId id = true)
    (hnone : store.find? (fun p => p.id == id) = none) :
    ∀ (ff : Option String) (destroy : DestroyOutcome) (df : Option String),
      ff = none →
      deleteProject store id ff destroy df
        = (⟨404, .errorMsg "Project not found"⟩, store, []) := by
  rintro _ destroy df rfl
  simp [deleteProject, hv, hnone]

theorem delete_notFound_witness :
    deleteProject [] "000000000000000000000000" none .success none
      = (⟨404, .errorMsg "Project not found"⟩, [], []) :=
  delete_notFound [] "000000000000000000000000" (by decide) rfl
    none .success none rfl

/-- C10: `DELETE /api/projects/:id` with a malformed id (not castable to an
ObjectId) throws in the lookup and returns 500 with the cast error message
rather than 404; no destroy call is issued and the store is unchanged.
Conversely a 404 response is only ever produced for a well-formed id. -/
theorem delete_malformedId (store : Store) (id : String) (ff : Option String)
    (destroy : DestroyOutcome) (df : Option String) :
    (validObjectId id = false →
       deleteProject store id ff destroy df
         = (⟨500, .errorMsg (castErrorMsg id)⟩, store, []))
  ∧ ((deleteProject store id ff destroy df).1.status = 404 →
       validObjectId id = true) := by
  have h500 : validObjectId id = false →
      deleteProject store id ff destroy df
        = (⟨500, .errorMsg (castErrorMsg id)⟩, store, []) := by
    intro hv
    simp [deleteProject, hv]
  refine ⟨h500, ?_⟩
  intro h404
  by_cases hv : validObjectId id
  · exact hv
  · rw [h500 (by simpa using hv)] at h404
    simp at h404

theorem delete_malformedId_witness :
    deleteProject [] "not-an-objectid" none .success none
      = (⟨500, .errorMsg (castErrorMsg "not-an-objectid")⟩, [], []) :=
  (delete_malformedId [] "not-an-objectid" none .success none).1 (by decide)

/-- C1: `DELETE /api/projects/:id` on an existing record.  If the record has
a (truthy) `publicId`, the Cloudinary destroy is called exactly once with
that `publicId`; on destroy failure the handler returns 500 and the store
is unchanged; the metadata record is removed only when the destroy (and the
final delete) succeed, answered with 200.  If the record has no truthy
`publicId`, no destroy call is issued and the record is still deleted with
a 200 response. -/
theorem delete_existing (store : Store) (id : String) (proj : Project)
    (destroy : DestroyOutcome)
    (hv : validObjectId id = true)
    (hfind : store.find? (fun p => p.id == id) = some proj) :
    (∀ pid, proj.publicId = some pid → pid ≠ "" →
        (∀ df, (deleteProject store id none destroy df).2.2 = [pid])
      ∧ (∀ msg, destroy = .failure msg →
          ∀ df, deleteProject store id none destroy df
            = (⟨500, .errorMsg msg⟩, store, [pid]))
      ∧ (destroy = .success →
          deleteProject store id none destroy none
            = (⟨200, .message "Project deleted successfully"⟩,
               store.filter (fun p => !(p.id == id)), [pid])
        ∧ proj ∉ store.filter (fun p => !(p.id == id))))
  ∧ (optTruthy proj.publicId = false →
        deleteProject store id none destroy none
          = (⟨200, .message "Project deleted successfully"⟩,
             store.filter (fun p => !(p.id == id)), [])
      ∧ proj ∉ store.filter (fun p => !(p.id == id))) := by
  have hid : (proj.id == id) = true := by
    have h := List.find?_some hfind
    simpa using h
  have hnotmem : proj ∉ store.filter (fun p => !(p.id == id)) := by
    intro hmem
    have hm := List.mem_filter.mp hmem
    simp [hid] at hm
  constructor
  · intro pid hpid hne
    have htr : optTruthy proj.publicId = true := by
      simp [optTruthy, hpid, hne]
    have hgetD : proj.publicId.getD "" = pid := by simp [hpid]
    refine ⟨?_, ?_, ?_⟩
    · intro df
      cases destroy with
      | success => cases df <;> simp [deleteProject, hv, hfind, htr, hgetD]
      | failure msg => simp [deleteProject, hv, hfind, htr, hgetD]
    · rintro msg rfl df
      simp [deleteProject, hv, hfind, htr, hgetD]
    · rintro rfl
      exact ⟨by simp [deleteProject, hv, hfind, htr, hgetD], hnotmem⟩
  · intro hfalse
    exact ⟨by simp [deleteProject, hv, hfind, hfalse], hnotmem⟩

theorem delete_existing_witness :
    deleteProject
        [⟨"aaaaaaaaaaaaaaaaaaaaaaaa", "T", "C", "u", some "lented-gallery/x", 3⟩]
        "aaaaaaaaaaaaaaaaaaaaaaaa" none .success none
      = (⟨200, .message "Project deleted successfully"⟩, [], ["lented-gallery/x"]) := by
  have h := ((delete_existing
      [⟨"aaaaaaaaaaaaaaaaaaaaaaaa", "T", "C", "u", some "lented-gallery/x", 3⟩]
      "aaaaaaaaaaaaaaaaaaaaaaaa"
      ⟨"aaaaaaaaaaaaaaaaaaaaaaaa", "T", "C", "u", some "lented-gallery/x", 3⟩
      .success (by decide) (by decide)).1
      "lented-gallery/x" rfl (by decide)).2.2 rfl
  exact h.1.trans (by decide)

/-- C6: the schema invariant (non-empty `title`, `category`, `imageUrl`) is
preserved by all three operations: listing leaves the store untouched,
upload only ever appends a record that passed validation (and returns it in
the 201 response), and delete only ever removes records.  No operation
modifies an existing record. -/
theorem store_invariant (store : Store) (hinv : StoreInv store) :
    (∀ ff, (getProjects store ff).2 = store)
  ∧ (∀ inc t c newId now dbFail,
        StoreInv (handleUpload store inc t c newId now dbFail).2.1
      ∧ ∀ p ∈ (handleUpload store inc t c newId now dbFail).2.1,
          p ∈ store ∨ handleUpload store inc t c newId now dbFail
            = (⟨201, .project p⟩, store ++ [p], (multerSingle inc).2))
  ∧ (∀ id ff destroy df,
        StoreInv (deleteProject store id ff destroy df).2.1
      ∧ ∀ p ∈ (deleteProject store id ff destroy df).2.1, p ∈ store) := by
  refine ⟨fun ff => by cases ff <;> rfl, ?_, ?_⟩
  · intro inc t c newId now dbFail
    cases inc with
    | none => exact ⟨hinv, fun p hp => Or.inl hp⟩
    | some f =>
      by_cases hvp : validProject ⟨newId, t, c, f.path, some f.filename, now⟩
      · cases dbFail with
        | some msg =>
          constructor
          · simpa [handleUpload, multerSingle, postUpload, hvp] using hinv
          · intro p hp
            left
            simpa [handleUpload, multerSingle, postUpload, hvp] using hp
        | none =>
          have hst : (handleUpload store (some f) t c newId now none).2.1
              = store ++ [⟨newId, t, c, f.path, some f.filename, now⟩] := by
            simp [handleUpload, multerSingle, postUpload, hvp]
          have hgood : goodRecord ⟨newId, t, c, f.path, some f.filename, now⟩ := by
            simpa [validProject, goodRecord, and_assoc] using hvp
          constructor
          · intro p hp
            rw [hst] at hp
            rcases List.mem_append.mp hp with h | h
            · exact hinv p h
            · rw [List.mem_singleton.mp h]
              exact hgood
          · intro p hp
            rw [hst] at hp
            rcases List.mem_append.mp hp with h | h
            · exact Or.inl h
            · right
              rw [List.mem_singleton.mp h]
              simp [handleUpload, multerSingle, postUpload, hvp]
      · constructor
        · simpa [handleUpload, multerSingle, postUpload, hvp] using hinv
        · intro p hp
          left
          simpa [handleUpload, multerSingle, postUpload, hvp] using hp
  · intro id ff destroy df
    have hcases : (deleteProject store id ff destroy df).2.1 = store ∨
        (deleteProject store id ff destroy df).2.1
          = store.filter (fun p => !(p.id == id)) := by
      simp only [deleteProject]
      repeat' split
      all_goals simp
    have hsub : ∀ p ∈ (deleteProject store id ff destroy df).2.1, p ∈ store := by
      intro p hp
      rcases hcases with h | h
      · rwa [h] at hp
      · rw [h] at hp
        exact (List.mem_filter.mp hp).1
    exact ⟨fun p hp => hinv p (hsub p hp), hsub⟩

theorem store_invariant_witness :
    StoreInv [(⟨"a", "T", "C", "u", none, 0⟩ : Project)]
  ∧ (getProjects [(⟨"a", "T", "C", "u", none, 0⟩ : Project)] none).2
      = [(⟨"a", "T", "C", "u", none, 0⟩ : Project)] := by
  have hinv : StoreInv [(⟨"a", "T", "C", "u", none, 0⟩ : Project)] := by
    intro p hp
    rw [List.mem_singleton.mp hp]
    exact ⟨by decide, by decide, by decide⟩
  exact ⟨hinv, (store_invariant _ hinv).1 none⟩

/-- C7: round-trip.  If `POST /api/upload` answers 201 with record `p`, then
an immediate `GET /api/projects` on the resulting store answers 200 with a
list containing `p`, whose `title`, `category`, `imageUrl`, `publicId` are
exactly the form fields and the asset-store values of the upload. -/
theorem upload_then_list (store : Store) (f : UploadedFile)
    (t c newId : String) (now : Nat) (p : Project)
    (h201 : (handleUpload store (some f) t c newId now none).1
      = ⟨201, .project p⟩) :
    (getProjects (handleUpload store (some f) t c newId now none).2.1 none).1
      = ⟨200, .projects (sortByCreatedAtDesc (store ++ [p]))⟩
  ∧ p ∈ sortByCreatedAtDesc (store ++ [p])
  ∧ p.title = t ∧ p.category = c ∧ p.imageUrl = f.path
  ∧ p.publicId = some f.filename := by
  by_cases hvp : validProject ⟨newId, t, c, f.path, some f.filename, now⟩
  · have h1 : (handleUpload store (some f) t c newId now none).1
        = ⟨201, .project ⟨newId, t, c, f.path, some f.filename, now⟩⟩ := by
      simp [handleUpload, multerSingle, postUpload, hvp]
    rw [h1] at h201
    obtain rfl : (⟨newId, t, c, f.path, some f.filename, now⟩ : Project) = p := by
      simpa using h201
    have hst : (handleUpload store (some f) t c newId now none).2.1
        = store ++ [(⟨newId, t, c, f.path, some f.filename, now⟩ : Project)] := by
      simp [handleUpload, multerSingle, postUpload, hvp]
    rw [hst]
    refine ⟨rfl, ?_, rfl, rfl, rfl, rfl⟩
    exact ((List.perm_insertionSort laterFirst _).mem_iff).mpr (by simp)
  · have h1 : (handleUpload store (some f) t c newId now none).1
        = ⟨500, .errorMsg "Project validation failed"⟩ := by
      simp [handleUpload, multerSingle, postUpload, hvp]
    rw [h1] at h201
    simp at h201

theorem upload_then_list_witness :
    (getProjects (handleUpload [] (some ⟨"u", "x"⟩)
        "Sunset" "Landscape" "i" 0 none).2.1 none).1
      = ⟨200, .projects (sortByCreatedAtDesc
          ([] ++ [(⟨"i", "Sunset", "Landscape", "u", some "x", 0⟩ : Project)]))⟩
  ∧ (⟨"i", "Sunset", "Landscape", "u", some "x", 0⟩ : Project)
      ∈ sortByCreatedAtDesc
          ([] ++ [(⟨"i", "Sunset", "Landscape", "u", some "x", 0⟩ : Project)])
  ∧ (⟨"i", "Sunset", "Landscape", "u", some "x", 0⟩ : Project).title = "Sunset"
  ∧ (⟨"i", "Sunset", "Landscape", "u", some "x", 0⟩ : Project).category = "Landscape"
  ∧ (⟨"i", "Sunset", "Landscape", "u", some "x", 0⟩ : Project).imageUrl = "u"
  ∧ (⟨"i", "Sunset", "Landscape", "u", some "x", 0⟩ : Project).publicId = some "x" :=
  upload_then_list [] ⟨"u", "x"⟩ "Sunset" "Landscape" "i" 0
    ⟨"i", "Sunset", "Landscape", "u", some "x", 0⟩ (by decide)

end Maxi
